import Mathlib

/-!
# Verification of the civi orchestration layer

Shallow embedding of `src/apps/browser.js`: the bounded like-sweep loop
(`autoLikeVideos`), the per-account retry loop and the batch scheduler
(`runMultiAccountTest`), the daily-dedup record store (`readTestRecords`,
`updateTestRecord`, `isTestedToday`) and the workflow pipeline
(`completeWorkflow`).  Page and driver behaviour is abstracted into
observation oracles; everything else follows the source control flow.
-/

/-- One observation the like-sweep loop can make of the page in one
iteration of the `while` loop of `autoLikeVideos` (browser.js 863-1000):
either a visible un-clicked 👍 button was found and the click evaluate
returned `clickOk`, or no such button was found (the loop scrolls), or the
underlying driver threw an exception (caught at browser.js 1021). -/
inductive Obs where
  | found (clickOk : Bool)
  | noButton
  | fault
deriving DecidableEq, Repr

/-- The mutable counters of `autoLikeVideos` (browser.js 854-856):
`successLikeCount`, `consecutiveFailCount`, `scrollCount`. -/
structure SweepState where
  success : Nat
  fail : Nat
  scroll : Nat
deriving DecidableEq, Repr

/-- Initial counters of the sweep (all zero, browser.js 854-856). -/
def initSweepState : SweepState := ⟨0, 0, 0⟩

/-- One non-faulting iteration of the sweep loop body (browser.js 866-999):
a verified click increments `successLikeCount` and resets
`consecutiveFailCount`; a failed click increments `consecutiveFailCount`;
no visible button scrolls, incrementing `scrollCount` and, on every third
scroll (`scrollCount % 3 === 0`, browser.js 995), also
`consecutiveFailCount`. -/
def sweepStep (o : Obs) (s : SweepState) : SweepState :=
  match o with
  | .found true => { s with success := s.success + 1, fail := 0 }
  | .found false => { s with fail := s.fail + 1 }
  | .noButton =>
      let sc := s.scroll + 1
      { s with scroll := sc, fail := if sc % 3 = 0 then s.fail + 1 else s.fail }
  | .fault => s

/-- How the sweep loop ended: the guard became false (`completed`), the
driver threw (`faulted`), or the modelling fuel ran out (`fuelOut`, shown
unreachable for sufficient fuel in `sweepRun_no_fuelOut`). -/
inductive ExitKind where
  | completed
  | faulted
  | fuelOut
deriving DecidableEq, Repr

/-- The sweep loop of `autoLikeVideos` (browser.js 863-1000): while
`successLikeCount < 50 && consecutiveFailCount < 5`, observe the page and
step.  Returns the final counters, the number of iterations executed, and
how the loop ended.  `obs i` is what the page yields at the i-th
iteration; a `fault` observation aborts the loop like the thrown
exception it models. -/
def sweepRun : Nat → (Nat → Obs) → Nat → SweepState → SweepState × Nat × ExitKind
  | 0, _, _, s => (s, 0, .fuelOut)
  | fuel + 1, obs, i, s =>
    if s.success < 50 ∧ s.fail < 5 then
      match obs i with
      | .fault => (s, 1, .faulted)
      | .found b =>
          let r := sweepRun fuel obs (i + 1) (sweepStep (.found b) s)
          (r.1, r.2.1 + 1, r.2.2)
      | .noButton =>
          let r := sweepRun fuel obs (i + 1) (sweepStep .noButton s)
          (r.1, r.2.1 + 1, r.2.2)
    else (s, 0, .completed)

/-- Fuel sufficient for any sweep from the initial state
(one more than `phiSweep initSweepState = 667`). -/
def sweepFuel : Nat := 668

/-- The result `{success, likeCount}` of `autoLikeVideos`: when the loop
exits normally it returns `success: true` with `likeCount =
successLikeCount` (browser.js 1016-1020); when an exception aborts it, the
catch branch returns `success: false, likeCount: 0` (browser.js 1032-1036). -/
def autoLikeVideosModel (obs : Nat → Obs) : Bool × Nat :=
  let r := sweepRun sweepFuel obs 0 initSweepState
  match r.2.2 with
  | .completed => (true, r.1.success)
  | _ => (false, 0)

/-- Potential function bounding the remaining iterations of the sweep
loop: each iteration taken while the guard holds strictly decreases it. -/
def phiSweep (s : SweepState) : Nat :=
  (50 - s.success) * 13 + (5 - s.fail) * 3 + (2 - s.scroll % 3)

theorem phiSweep_step_lt (o : Obs) (s : SweepState) (ho : o ≠ .fault)
    (hs : s.success < 50) (hf : s.fail < 5) :
    phiSweep (sweepStep o s) < phiSweep s := by
  match o with
  | .fault => exact absurd rfl ho
  | .found true =>
      simp only [sweepStep, phiSweep]
      omega
  | .found false =>
      simp only [sweepStep, phiSweep]
      omega
  | .noButton =>
      simp only [sweepStep, phiSweep]
      by_cases h : (s.scroll + 1) % 3 = 0 <;> simp only [h, if_true, if_false] <;> omega

theorem sweepRun_count_le (fuel : Nat) (obs : Nat → Obs) (i : Nat) (s : SweepState) :
    (sweepRun fuel obs i s).2.1 ≤ phiSweep s := by
  induction fuel generalizing i s with
  | zero => simp [sweepRun]
  | succ n ih =>
      simp only [sweepRun]
      by_cases hg : s.success < 50 ∧ s.fail < 5
      · rw [if_pos hg]
        have hphi : 1 ≤ phiSweep s := by
          simp only [phiSweep]; omega
        cases ho : obs i with
        | fault => simpa using hphi
        | found b =>
            have hlt := phiSweep_step_lt (.found b) s (by simp) hg.1 hg.2
            have := ih (i + 1) (sweepStep (.found b) s)
            dsimp only
            omega
        | noButton =>
            have hlt := phiSweep_step_lt .noButton s (by simp) hg.1 hg.2
            have := ih (i + 1) (sweepStep .noButton s)
            dsimp only
            omega
      · simp [hg]

theorem sweepRun_no_fuelOut (fuel : Nat) (obs : Nat → Obs) (i : Nat) (s : SweepState)
    (hfuel : phiSweep s < fuel) :
    (sweepRun fuel obs i s).2.2 ≠ .fuelOut := by
  induction fuel generalizing i s with
  | zero => omega
  | succ n ih =>
      simp only [sweepRun]
      by_cases hg : s.success < 50 ∧ s.fail < 5
      · rw [if_pos hg]
        cases ho : obs i with
        | fault => simp
        | found b =>
            have hlt := phiSweep_step_lt (.found b) s (by simp) hg.1 hg.2
            exact ih (i + 1) (sweepStep (.found b) s) (by omega)
        | noButton =>
            have hlt := phiSweep_step_lt .noButton s (by simp) hg.1 hg.2
            exact ih (i + 1) (sweepStep .noButton s) (by omega)
      · simp [hg]

theorem sweepRun_success_le (fuel : Nat) (obs : Nat → Obs) (i : Nat) (s : SweepState)
    (hs : s.success ≤ 50) :
    (sweepRun fuel obs i s).1.success ≤ 50 := by
  induction fuel generalizing i s with
  | zero => simpa [sweepRun] using hs
  | succ n ih =>
      simp only [sweepRun]
      by_cases hg : s.success < 50 ∧ s.fail < 5
      · rw [if_pos hg]
        cases ho : obs i with
        | fault => simpa using hs
        | found b =>
            cases b with
            | true => exact ih (i + 1) _ (by simp only [sweepStep]; omega)
            | false => exact ih (i + 1) _ (by simp only [sweepStep]; omega)
        | noButton =>
            exact ih (i + 1) _ (by simp only [sweepStep]; omega)
      · simpa [hg] using hs

/-- One entry of the dedup record store, `records.records[email]`
(browser.js 1075-1079).  `lastTestTime` is omitted: no reader consults it. -/
structure TestRecord where
  lastTestDate : String
  lastTestResult : String
deriving DecidableEq, Repr

/-- The state of the records file `records/test_records.json` as seen by
`readTestRecords` (browser.js 1044-1061): absent, present but
unreadable/unparseable, or holding a parsed record map. -/
inductive FileState where
  | absent
  | corrupt
  | content (records : List (String × TestRecord))
deriving DecidableEq, Repr

/-- `readTestRecords` (browser.js 1044-1061): a missing file yields a fresh
empty map, and any read/parse error is caught and an empty map returned. -/
def readTestRecords : FileState → List (String × TestRecord)
  | .absent => []
  | .corrupt => []
  | .content recs => recs

/-- Lookup of `records.records[email]`. -/
def lookupRecord (recs : List (String × TestRecord)) (email : String) : Option TestRecord :=
  (recs.find? (fun p => p.1 == email)).map (·.2)

/-- JavaScript object assignment `records.records[email] = r`: replace the
existing entry for the key, else append. -/
def upsertRecord : List (String × TestRecord) → String → TestRecord → List (String × TestRecord)
  | [], email, r => [(email, r)]
  | p :: rest, email, r =>
      if p.1 == email then (email, r) :: rest else p :: upsertRecord rest email r

/-- `updateTestRecord` (browser.js 1069-1087): read the records, overwrite
the entry for `email` with the date and `'success'`/`'failed'`, write back. -/
def updateTestRecord (fs : FileState) (email date : String) (success : Bool) : FileState :=
  .content (upsertRecord (readTestRecords fs) email
    ⟨date, if success then "success" else "failed"⟩)

/-- `isTestedToday` (browser.js 1094-1115): true iff the store has a record
for `email` whose `lastTestDate` is today and whose `lastTestResult` is
`'success'`. -/
def isTestedToday (fs : FileState) (email today : String) : Bool :=
  match lookupRecord (readTestRecords fs) email with
  | none => false
  | some r => r.lastTestDate == today && r.lastTestResult == "success"

theorem lookupRecord_upsert (recs : List (String × TestRecord)) (email : String)
    (r : TestRecord) : lookupRecord (upsertRecord recs email r) email = some r := by
  induction recs with
  | nil => simp [upsertRecord, lookupRecord, List.find?]
  | cons p rest ih =>
      by_cases h : p.1 == email
      · simp [upsertRecord, h, lookupRecord, List.find?]
      · simpa [upsertRecord, h, lookupRecord, List.find?] using ih

/-- The outcome of one attempt body of the retry loop of
`runMultiAccountTest` (browser.js 1224-1287), as seen from outside: the
login-email request failed, the workflow failed, the body threw, or the
workflow succeeded. -/
inductive AttemptOutcome where
  | loginFailed (e : String)
  | workflowFailed (e : String)
  | thrown (e : String)
  | succeeded
deriving DecidableEq, Repr

/-- An entry of `accountResult.attempts` (browser.js 1216-1222, 1290-1291);
start/end timestamps are wall-clock noise and omitted. -/
structure AttemptRecord where
  attemptNumber : Nat
  succeeded : Bool
  error : Option String
deriving DecidableEq, Repr

/-- The `attemptResult` recorded for attempt `n` with body outcome `o`
(browser.js 1264-1278): success clears the error; the two reported
failures carry their stage-naming message; a thrown error is caught at
browser.js 1276 and stored verbatim. -/
def mkAttemptRecord (n : Nat) (o : AttemptOutcome) : AttemptRecord :=
  match o with
  | .succeeded => ⟨n, true, none⟩
  | .loginFailed e => ⟨n, false, some ("登录邮件请求失败: " ++ e)⟩
  | .workflowFailed e => ⟨n, false, some ("工作流程失败: " ++ e)⟩
  | .thrown e => ⟨n, false, some e⟩

/-- Whether an attempt outcome sets `success = true` (browser.js 1266). -/
def isSuccessOutcome : AttemptOutcome → Bool
  | .succeeded => true
  | _ => false

/-- Browser-session lifecycle events of one account's processing: attempt
`n` launches a fresh browser (browser.js 1227) and closes it in the
`finally` block (browser.js 1279-1287). -/
inductive Event where
  | launch (n : Nat)
  | closeBrowser (n : Nat)
deriving DecidableEq, Repr

/-- The retry loop `while (!success && attemptCount < config.maxRetries)`
(browser.js 1212-1317), with `fuel` attempts remaining and `k` attempts
already made: each iteration launches a browser, runs the attempt body
(outcome `oracle (k+1)`), closes the browser in `finally`, appends the
attempt record, and stops on the first success.  Returns the attempts
list, the `success` flag, and the session-event trace. -/
def runAttemptsAux (oracle : Nat → AttemptOutcome) :
    Nat → Nat → List AttemptRecord × Bool × List Event
  | 0, _ => ([], false, [])
  | fuel + 1, k =>
      let o := oracle (k + 1)
      let a := mkAttemptRecord (k + 1) o
      let ev := [Event.launch (k + 1), Event.closeBrowser (k + 1)]
      if isSuccessOutcome o then ([a], true, ev)
      else
        let r := runAttemptsAux oracle fuel (k + 1)
        (a :: r.1, r.2.1, ev ++ r.2.2)

/-- The retry loop for one account, starting with zero attempts made and at
most `maxRetries` to make (browser.js 1206-1212). -/
def runAttempts (oracle : Nat → AttemptOutcome) (maxRetries : Nat) :
    List AttemptRecord × Bool × List Event :=
  runAttemptsAux oracle maxRetries 0

theorem runAttemptsAux_length_le (oracle : Nat → AttemptOutcome) (fuel k : Nat) :
    (runAttemptsAux oracle fuel k).1.length ≤ fuel := by
  induction fuel generalizing k with
  | zero => simp [runAttemptsAux]
  | succ n ih =>
      simp only [runAttemptsAux]
      by_cases h : isSuccessOutcome (oracle (k + 1)) = true
      · rw [if_pos h]
        simp
      · rw [if_neg h]
        simp only [List.length_cons]
        have := ih (k + 1)
        omega

theorem runAttemptsAux_length_first_success (oracle : Nat → AttemptOutcome)
    (fuel k j : Nat) (hj1 : 1 ≤ j) (hjf : j ≤ fuel)
    (hsucc : isSuccessOutcome (oracle (k + j)) = true)
    (hmin : ∀ i, i < j → 1 ≤ i → isSuccessOutcome (oracle (k + i)) = false) :
    (runAttemptsAux oracle fuel k).1.length = j := by
  induction fuel generalizing k j with
  | zero => omega
  | succ n ih =>
      simp only [runAttemptsAux]
      by_cases h : isSuccessOutcome (oracle (k + 1)) = true
      · have hj : j = 1 := by
          by_contra hne
          have := hmin 1 (by omega) (by omega)
          rw [this] at h
          exact absurd h (by simp)
        rw [if_pos h, hj]
        simp
      · have hj2 : 2 ≤ j := by
          by_contra hlt
          have hj : j = 1 := by omega
          subst hj
          exact h hsucc
        rw [if_neg h]
        simp only [List.length_cons]
        have := ih (k + 1) (j - 1) (by omega) (by omega)
          (by rw [show k + 1 + (j - 1) = k + j by omega]; exact hsucc)
          (fun i hi hi1 => by
            rw [show k + 1 + i = k + (i + 1) by omega]
            exact hmin (i + 1) (by omega) (by omega))
        omega

theorem runAttemptsAux_mem (oracle : Nat → AttemptOutcome) (fuel k : Nat)
    (a : AttemptRecord) (ha : a ∈ (runAttemptsAux oracle fuel k).1) :
    a = mkAttemptRecord a.attemptNumber (oracle a.attemptNumber) := by
  induction fuel generalizing k with
  | zero => simp [runAttemptsAux] at ha
  | succ n ih =>
      simp only [runAttemptsAux] at ha
      by_cases h : isSuccessOutcome (oracle (k + 1)) = true
      · rw [if_pos h] at ha
        simp only [List.mem_singleton] at ha
        subst ha
        cases ho : oracle (k + 1) <;> simp [mkAttemptRecord, ho]
      · rw [if_neg h] at ha
        simp only [List.mem_cons] at ha
        rcases ha with ha | ha
        · subst ha
          cases ho : oracle (k + 1) <;> simp [mkAttemptRecord, ho]
        · exact ih (k + 1) ha

theorem runAttemptsAux_events (oracle : Nat → AttemptOutcome) (fuel k : Nat) :
    (runAttemptsAux oracle fuel k).2.2 =
      (runAttemptsAux oracle fuel k).1.flatMap
        (fun a => [Event.launch a.attemptNumber, Event.closeBrowser a.attemptNumber]) := by
  induction fuel generalizing k with
  | zero => simp [runAttemptsAux]
  | succ n ih =>
      simp only [runAttemptsAux]
      by_cases h : isSuccessOutcome (oracle (k + 1)) = true
      · rw [if_pos h]
        cases ho : oracle (k + 1) <;> simp [mkAttemptRecord]
      · rw [if_neg h]
        cases ho : oracle (k + 1) <;>
          simp [mkAttemptRecord, List.flatMap_cons, ih (k + 1)]

/-- The per-account entry of `testResults.accountResults`
(browser.js 1180-1204, 1291-1340), with the session-event trace of its
processing attached as instrumentation. -/
structure AccountResult where
  email : String
  attempts : List AttemptRecord
  finalStatus : String
  events : List Event
deriving DecidableEq, Repr

/-- Processing of one account in `runMultiAccountTest` (browser.js
1165-1352): if `isTestedToday(email)` holds, record a `skipped` result
and continue — no attempt record, no browser launched (browser.js
1175-1194); otherwise run the retry loop, set `finalStatus` to `success`
or `failed`, and on success call `updateTestRecord(email, today, true)`
(browser.js 1294-1310).  Returns the result and the updated store. -/
def processAccount (maxRetries : Nat) (oracle : Nat → AttemptOutcome)
    (fs : FileState) (today email : String) : AccountResult × FileState :=
  if isTestedToday fs email today then
    ({ email := email, attempts := [], finalStatus := "skipped", events := [] }, fs)
  else
    let r := runAttempts oracle maxRetries
    ({ email := email, attempts := r.1,
       finalStatus := if r.2.1 then "success" else "failed", events := r.2.2 },
     if r.2.1 then updateTestRecord fs email today true else fs)

/-- The account loop of `runMultiAccountTest` over the configured email
list (browser.js 1165-1352), threading the record store.  Each produced
entry is paired with the store state it was scheduled against. -/
def runBatch (maxRetries : Nat) (oracle : String → Nat → AttemptOutcome)
    (today : String) : FileState → List String → List (AccountResult × FileState)
  | _, [] => []
  | fs, email :: rest =>
      let r := processAccount maxRetries (oracle email) fs today email
      (r.1, fs) :: runBatch maxRetries oracle today r.2 rest

/-- The success/failure outcome of one pipeline stage, as the uniform
`{success, error}` shape every stage function returns. -/
inductive StageResult where
  | ok
  | err (e : String)
deriving DecidableEq, Repr

/-- The stages of `completeWorkflow` (browser.js 674-766), in pipeline
order, plus the spec's ensure-sort-order stage for the modelled variant. -/
inductive Stage where
  | mailLogin
  | findEmail
  | openEmail
  | clickSignIn
  | navigateFeed
  | ensureSortOrder
  | likeSweep
deriving DecidableEq, Repr

/-- The `{success, error}` value `completeWorkflow` returns. -/
structure WFResult where
  success : Bool
  error : Option String
deriving DecidableEq, Repr

/-- The environment one run of `completeWorkflow` executes against: the
outcome each fallible stage would produce if invoked, and the feed the
like sweep would observe. -/
structure WorkflowEnv where
  mailLogin : StageResult
  findEmail : StageResult
  openEmail : StageResult
  clickSignIn : StageResult
  visitVideos : StageResult
  feed : Nat → Obs

/-- `completeWorkflow` (browser.js 674-766): strictly sequential stages,
each failure thrown with a stage-naming message and caught at browser.js
758, short-circuiting the rest; the terminal `autoLikeVideos` call's
failure is only logged (browser.js 746-750) and the workflow still
returns `success: true`.  Also returns the list of stages invoked. -/
def completeWorkflowModel (env : WorkflowEnv) : WFResult × List Stage :=
  match env.mailLogin with
  | .err e => (⟨false, some ("邮箱登录失败: " ++ e)⟩, [.mailLogin])
  | .ok =>
  match env.findEmail with
  | .err e => (⟨false, some ("查找Civitai邮件失败: " ++ e)⟩, [.mailLogin, .findEmail])
  | .ok =>
  match env.openEmail with
  | .err e =>
      (⟨false, some ("打开Civitai邮件失败: " ++ e)⟩, [.mailLogin, .findEmail, .openEmail])
  | .ok =>
  match env.clickSignIn with
  | .err e =>
      (⟨false, some ("点击Sign in按钮失败: " ++ e)⟩,
       [.mailLogin, .findEmail, .openEmail, .clickSignIn])
  | .ok =>
  match env.visitVideos with
  | .err e =>
      (⟨false, some ("无法访问Civitai视频页面: " ++ e)⟩,
       [.mailLogin, .findEmail, .openEmail, .clickSignIn, .navigateFeed])
  | .ok =>
      let _sweep := autoLikeVideosModel env.feed
      (⟨true, none⟩,
       [.mailLogin, .findEmail, .openEmail, .clickSignIn, .navigateFeed, .likeSweep])

/-- How the attempt body of `runMultiAccountTest` classifies its outcome
(browser.js 1250-1275): a failed login-email request, else the workflow
result; `attemptResult.error` is derived from it by `mkAttemptRecord`. -/
def outcomeOfAttempt (loginReq : StageResult) (w : WFResult) : AttemptOutcome :=
  match loginReq with
  | .err e => .loginFailed e
  | .ok => if w.success then .succeeded else .workflowFailed (w.error.getD "")

/-- Modelled from the spec: the EnsureSortOrder stage (spec §4.2 stage 8)
is not present in the `completeWorkflow` of `src/apps/browser.js`; the
spec places it between navigate-to-feed and the like sweep and makes its
failure non-fatal ("it is logged and execution continues").  This
environment extends `WorkflowEnv` with that stage's outcome. -/
structure WorkflowEnvS where
  base : WorkflowEnv
  sortOrder : StageResult

/-- Modelled from the spec: `completeWorkflow` with the spec's
ensure-sort-order stage inserted after navigate-to-feed; its failure is
logged and execution continues to the like sweep, every other stage
short-circuits exactly as in `completeWorkflowModel`. -/
def completeWorkflowSorted (env : WorkflowEnvS) : WFResult × List Stage :=
  match env.base.mailLogin with
  | .err e => (⟨false, some ("邮箱登录失败: " ++ e)⟩, [.mailLogin])
  | .ok =>
  match env.base.findEmail with
  | .err e => (⟨false, some ("查找Civitai邮件失败: " ++ e)⟩, [.mailLogin, .findEmail])
  | .ok =>
  match env.base.openEmail with
  | .err e =>
      (⟨false, some ("打开Civitai邮件失败: " ++ e)⟩, [.mailLogin, .findEmail, .openEmail])
  | .ok =>
  match env.base.clickSignIn with
  | .err e =>
      (⟨false, some ("点击Sign in按钮失败: " ++ e)⟩,
       [.mailLogin, .findEmail, .openEmail, .clickSignIn])
  | .ok =>
  match env.base.visitVideos with
  | .err e =>
      (⟨false, some ("无法访问Civitai视频页面: " ++ e)⟩,
       [.mailLogin, .findEmail, .openEmail, .clickSignIn, .navigateFeed])
  | .ok =>
      let _sort := env.sortOrder
      let _sweep := autoLikeVideosModel env.base.feed
      (⟨true, none⟩,
       [.mailLogin, .findEmail, .openEmail, .clickSignIn, .navigateFeed,
        .ensureSortOrder, .likeSweep])

theorem isTestedToday_iff (fs : FileState) (email today : String) :
    isTestedToday fs email today = true ↔
      ∃ r, lookupRecord (readTestRecords fs) email = some r ∧
        r.lastTestDate = today ∧ r.lastTestResult = "success" := by
  unfold isTestedToday
  cases h : lookupRecord (readTestRecords fs) email with
  | none => simp
  | some r =>
      simp only [Bool.and_eq_true, beq_iff_eq, Option.some.injEq]
      constructor
      · rintro ⟨h1, h2⟩
        exact ⟨r, rfl, h1, h2⟩
      · rintro ⟨r', hr', h1, h2⟩
        cases hr'
        exact ⟨h1, h2⟩

/-- The feed that refutes the iteration bound of C1: two fruitless scrolls,
then one successful like, repeated.  Each like resets
`consecutiveFailCount`, so the failure budget never runs out before the
target of 50 likes, and the loop runs 150 iterations. -/
def c1Feed : Nat → Obs := fun i => if i % 3 = 2 then .found true else .noButton

set_option maxRecDepth 100000 in
/-- C1 counterexample: on the feed `c1Feed` the sweep loop completes
normally after exactly 150 iterations with 50 likes, exceeding the claimed
iteration bound of `targetCount + failCap * 3 = 50 + 5 * 3 = 65`. -/
theorem C1_counterexample :
    (sweepRun sweepFuel c1Feed 0 initSweepState).2.2 = ExitKind.completed ∧
    (sweepRun sweepFuel c1Feed 0 initSweepState).2.1 = 150 ∧
    (sweepRun sweepFuel c1Feed 0 initSweepState).1.success = 50 ∧
    ¬ (sweepRun sweepFuel c1Feed 0 initSweepState).2.1 ≤ 50 + 5 * 3 := by
  refine ⟨by decide, by decide, by decide, by decide⟩

/-- C1 (amended): for every feed the like-sweep loop of `autoLikeVideos`
terminates — from the initial counters it completes within the potential
bound of 667 iterations (the claimed bound `50 + 5 * 3 = 65` does not
hold, see the counterexample), and the returned `likeCount` never exceeds
the target count of 50. -/
theorem C1_sweep_terminates_bounded (obs : Nat → Obs) :
    (sweepRun sweepFuel obs 0 initSweepState).2.2 ≠ ExitKind.fuelOut ∧
    (sweepRun sweepFuel obs 0 initSweepState).2.1 ≤ 667 ∧
    (autoLikeVideosModel obs).2 ≤ 50 := by
  have hphi : phiSweep initSweepState = 667 := by decide
  refine ⟨?_, ?_, ?_⟩
  · exact sweepRun_no_fuelOut sweepFuel obs 0 initSweepState (by rw [hphi]; decide)
  · have := sweepRun_count_le sweepFuel obs 0 initSweepState
    omega
  · unfold autoLikeVideosModel
    have hle := sweepRun_success_le sweepFuel obs 0 initSweepState (by decide)
    cases hE : (sweepRun sweepFuel obs 0 initSweepState).2.2 <;> simp [hE] <;> omega

/-- C7: whenever the sweep loop of `autoLikeVideos` exits because the
success count reached 50 or the consecutive-failure count reached 5 (no
exception), `autoLikeVideos` returns `success: true` with `likeCount`
equal to the final count of verified likes. -/
theorem C7_sweep_exhaustion_success (obs : Nat → Obs)
    (h : (sweepRun sweepFuel obs 0 initSweepState).2.2 = ExitKind.completed) :
    autoLikeVideosModel obs =
      (true, (sweepRun sweepFuel obs 0 initSweepState).1.success) := by
  simp only [autoLikeVideosModel, h]

/-- The C7 scenario feed: exactly 3 actionable unacted items, nothing more
revealed by scrolling. -/
def c7Feed : Nat → Obs := fun i => if i < 3 then .found true else .noButton

/-- C7 witness: with 3 actionable items and an otherwise barren feed, the
sweep completes failure-exhausted (`consecutiveFailCount = 5`) and
`autoLikeVideos` returns `success: true` with `likeCount = 3`. -/
theorem C7_witness :
    (sweepRun sweepFuel c7Feed 0 initSweepState).2.2 = ExitKind.completed ∧
    autoLikeVideosModel c7Feed = (true, 3) ∧
    (sweepRun sweepFuel c7Feed 0 initSweepState).1.fail = 5 :=
  ⟨by decide,
   (C7_sweep_exhaustion_success c7Feed (by decide)).trans (by decide),
   by decide⟩

/-- C2: for every identity and configured `maxRetries`, the retry loop of
`runMultiAccountTest` records at most `maxRetries` attempts, and when some
attempt succeeds the attempts list has exactly as many entries as the
1-based index of the first successful attempt. -/
theorem C2_attempts_bounded (oracle : Nat → AttemptOutcome) (m : Nat) :
    (runAttempts oracle m).1.length ≤ m ∧
    ∀ j, 1 ≤ j → j ≤ m → isSuccessOutcome (oracle j) = true →
      (∀ i, i < j → 1 ≤ i → isSuccessOutcome (oracle i) = false) →
      (runAttempts oracle m).1.length = j := by
  refine ⟨runAttemptsAux_length_le oracle m 0, fun j h1 h2 h3 h4 => ?_⟩
  exact runAttemptsAux_length_first_success oracle m 0 j h1 h2
    (by simpa using h3) (fun i hi hi1 => by simpa using h4 i hi hi1)

/-- The attempt oracle of the C2 witness: attempts 1 fails, attempt 2
succeeds, any further attempt would fail. -/
def c2Oracle : Nat → AttemptOutcome :=
  fun i => if i = 2 then .succeeded else .workflowFailed "w"

/-- C2 witness: with `maxRetries = 5` and the first success at attempt 2,
exactly 2 attempts are recorded. -/
theorem C2_witness :
    (runAttempts c2Oracle 5).1.length ≤ 5 ∧ (runAttempts c2Oracle 5).1.length = 2 :=
  ⟨(C2_attempts_bounded c2Oracle 5).1,
   (C2_attempts_bounded c2Oracle 5).2 2 (by decide) (by decide) (by decide) (by decide)⟩

/-- C4: for every attempt the retry loop makes — succeeding, failing or
throwing — the browser launched for it is closed before the next attempt's
launch or the account's processing returns (the event trace is exactly a
launch/close pair per recorded attempt, in order), and a thrown fault is
converted into a failed attempt record carrying the fault's message. -/
theorem C4_session_cleanup (oracle : Nat → AttemptOutcome) (m : Nat)
    (a : AttemptRecord) (ha : a ∈ (runAttempts oracle m).1) :
    (runAttempts oracle m).2.2 =
      (runAttempts oracle m).1.flatMap
        (fun r => [Event.launch r.attemptNumber, Event.closeBrowser r.attemptNumber]) ∧
    a = mkAttemptRecord a.attemptNumber (oracle a.attemptNumber) ∧
    ∀ e, oracle a.attemptNumber = .thrown e → a.succeeded = false ∧ a.error = some e := by
  refine ⟨runAttemptsAux_events oracle m 0, runAttemptsAux_mem oracle m 0 a ha, ?_⟩
  intro e he
  rw [runAttemptsAux_mem oracle m 0 a ha, he]
  simp [mkAttemptRecord]

/-- The attempt oracle of the C4 witness: every attempt throws. -/
def c4Oracle : Nat → AttemptOutcome := fun _ => .thrown "boom"

/-- C4 witness: with two throwing attempts, the trace is
launch 1, close 1, launch 2, close 2, and attempt 1's record is a failed
record carrying the thrown message. -/
theorem C4_witness :
    (runAttempts c4Oracle 2).2.2 =
      (runAttempts c4Oracle 2).1.flatMap
        (fun r => [Event.launch r.attemptNumber, Event.closeBrowser r.attemptNumber]) ∧
    AttemptRecord.mk 1 false (some "boom") =
      mkAttemptRecord 1 (c4Oracle 1) ∧
    ∀ e, c4Oracle 1 = .thrown e →
      (AttemptRecord.mk 1 false (some "boom")).succeeded = false ∧
      (AttemptRecord.mk 1 false (some "boom")).error = some e :=
  C4_session_cleanup c4Oracle 2 ⟨1, false, some "boom"⟩ (by decide)

/-- C6: recording a success for an identity on day `D` and then asking
`isTestedToday` on day `D` yields true, while asking on any different
(e.g. later) day yields false. -/
theorem C6_record_roundtrip (fs : FileState) (id D Dlater : String)
    (hne : Dlater ≠ D) :
    isTestedToday (updateTestRecord fs id D true) id D = true ∧
    isTestedToday (updateTestRecord fs id D true) id Dlater = false := by
  have hred : readTestRecords (updateTestRecord fs id D true) =
      upsertRecord (readTestRecords fs) id ⟨D, "success"⟩ := rfl
  constructor
  · simp [isTestedToday, hred, lookupRecord_upsert]
  · simp [isTestedToday, hred, lookupRecord_upsert, Ne.symm hne]

/-- C6 witness: a concrete identity recorded successful on 2026-10-11 is
seen as tested that day and not on 2026-10-12. -/
theorem C6_witness :
    isTestedToday (updateTestRecord .absent "a@x.com" "2026-10-11" true)
      "a@x.com" "2026-10-11" = true ∧
    isTestedToday (updateTestRecord .absent "a@x.com" "2026-10-11" true)
      "a@x.com" "2026-10-12" = false :=
  C6_record_roundtrip .absent "a@x.com" "2026-10-11" "2026-10-12" (by decide)

/-- C9: the dedup record store fails open — a missing records file and an
unreadable/unparseable one both behave as an empty record map, and
`isTestedToday` then answers false for every identity, with no exception
reaching the caller (both functions are total on every file state). -/
theorem C9_store_fails_open (email today : String) :
    readTestRecords .absent = [] ∧ readTestRecords .corrupt = [] ∧
    isTestedToday .absent email today = false ∧
    isTestedToday .corrupt email today = false := by
  refine ⟨rfl, rfl, ?_, ?_⟩ <;> simp [isTestedToday, readTestRecords, lookupRecord]

/-- C3: for every identity processed by the batch loop of
`runMultiAccountTest`, its result has `finalStatus = 'skipped'` iff the
record store consulted for it holds a record for that identity dated
today with outcome success; and a skipped identity has an empty attempts
list and no browser-session events. -/
theorem C3_skipped_iff_dedup (m : Nat) (oracle : String → Nat → AttemptOutcome)
    (today : String) (fs : FileState) (emails : List String)
    (p : AccountResult × FileState) (hp : p ∈ runBatch m oracle today fs emails) :
    (p.1.finalStatus = "skipped" ↔
      ∃ r, lookupRecord (readTestRecords p.2) p.1.email = some r ∧
        r.lastTestDate = today ∧ r.lastTestResult = "success") ∧
    (p.1.finalStatus = "skipped" → p.1.attempts = [] ∧ p.1.events = []) := by
  induction emails generalizing fs with
  | nil => simp [runBatch] at hp
  | cons email rest ih =>
      simp only [runBatch, List.mem_cons] at hp
      rcases hp with hp | hp
      · subst hp
        by_cases ht : isTestedToday fs email today = true
        · simp only [processAccount, ht, if_true]
          refine ⟨?_, by simp⟩
          simpa using (isTestedToday_iff fs email today).mp ht
        · simp only [processAccount, ht, Bool.false_eq_true, if_false]
          constructor
          · constructor
            · intro hst
              by_cases hs : (runAttempts (oracle email) m).2.1 <;>
                simp [hs] at hst
            · intro hex
              exact absurd ((isTestedToday_iff fs email today).mpr (by simpa using hex)) ht
          · intro hst
            by_cases hs : (runAttempts (oracle email) m).2.1 <;>
              simp [hs] at hst
      · exact ih _ hp

/-- The store of the C3 witness: one identity already successful today. -/
def c3Store : FileState :=
  .content [("a@x.com", ⟨"2026-10-11", "success"⟩)]

/-- C3 witness: the identity recorded successful today is produced as a
skipped result with no attempts and no session events, and the skip is
equivalent to the store's record saying success today. -/
theorem C3_witness :
    ((AccountResult.mk "a@x.com" [] "skipped" [], c3Store) ∈
        runBatch 1 (fun _ _ => .thrown "x") "2026-10-11" c3Store ["a@x.com"]) ∧
    ((AccountResult.mk "a@x.com" [] "skipped" []).finalStatus = "skipped" ↔
      ∃ r, lookupRecord (readTestRecords c3Store) "a@x.com" = some r ∧
        r.lastTestDate = "2026-10-11" ∧ r.lastTestResult = "success") ∧
    ((AccountResult.mk "a@x.com" [] "skipped" []).finalStatus = "skipped" →
      (AccountResult.mk "a@x.com" [] "skipped" []).attempts = [] ∧
      (AccountResult.mk "a@x.com" [] "skipped" []).events = []) :=
  ⟨by decide,
   (C3_skipped_iff_dedup 1 (fun _ _ => .thrown "x") "2026-10-11" c3Store ["a@x.com"]
      (AccountResult.mk "a@x.com" [] "skipped" [], c3Store) (by decide)).1,
   (C3_skipped_iff_dedup 1 (fun _ _ => .thrown "x") "2026-10-11" c3Store ["a@x.com"]
      (AccountResult.mk "a@x.com" [] "skipped" [], c3Store) (by decide)).2⟩

/-- C5: when mailbox login succeeds and the locate-message stage
(`findCivitaiEmail`) fails, `completeWorkflow` stops there — the open
message, follow sign-in link, navigate-to-feed and like-sweep stages are
never invoked — its error carries the locate-message stage's message, and
the attempt record derived from the workflow outcome names that stage. -/
theorem C5_locate_fail_short_circuits (env : WorkflowEnv) (e : String)
    (hm : env.mailLogin = .ok) (hf : env.findEmail = .err e) :
    completeWorkflowModel env =
      (⟨false, some ("查找Civitai邮件失败: " ++ e)⟩, [.mailLogin, .findEmail]) ∧
    Stage.openEmail ∉ (completeWorkflowModel env).2 ∧
    Stage.clickSignIn ∉ (completeWorkflowModel env).2 ∧
    Stage.navigateFeed ∉ (completeWorkflowModel env).2 ∧
    Stage.likeSweep ∉ (completeWorkflowModel env).2 ∧
    mkAttemptRecord 1 (outcomeOfAttempt .ok (completeWorkflowModel env).1) =
      ⟨1, false, some ("工作流程失败: " ++ ("查找Civitai邮件失败: " ++ e))⟩ := by
  have hw : completeWorkflowModel env =
      (⟨false, some ("查找Civitai邮件失败: " ++ e)⟩, [.mailLogin, .findEmail]) := by
    simp [completeWorkflowModel, hm, hf]
  refine ⟨hw, ?_, ?_, ?_, ?_, ?_⟩ <;> rw [hw] <;>
    simp [outcomeOfAttempt, mkAttemptRecord]

/-- The environment of the C5 witness: mailbox login succeeds, locating the
Civitai message fails. -/
def c5Env : WorkflowEnv :=
  ⟨.ok, .err "未找到Civitai邮件", .ok, .ok, .ok, fun _ => .noButton⟩

/-- C5 witness: with a concrete failing locate-message stage the workflow
stops after two stages and the attempt error names the stage. -/
theorem C5_witness :
    completeWorkflowModel c5Env =
      (⟨false, some ("查找Civitai邮件失败: " ++ "未找到Civitai邮件")⟩,
       [.mailLogin, .findEmail]) ∧
    Stage.openEmail ∉ (completeWorkflowModel c5Env).2 ∧
    Stage.clickSignIn ∉ (completeWorkflowModel c5Env).2 ∧
    Stage.navigateFeed ∉ (completeWorkflowModel c5Env).2 ∧
    Stage.likeSweep ∉ (completeWorkflowModel c5Env).2 ∧
    mkAttemptRecord 1 (outcomeOfAttempt .ok (completeWorkflowModel c5Env).1) =
      ⟨1, false, some ("工作流程失败: " ++ ("查找Civitai邮件失败: " ++ "未找到Civitai邮件"))⟩ :=
  C5_locate_fail_short_circuits c5Env "未找到Civitai邮件" rfl rfl

/-- C10: when mailbox login, locate message, open message, follow sign-in
link and navigate to the videos feed all succeed, `completeWorkflow`
returns `success: true` even if `autoLikeVideos` reports
`success: false` — the sweep failure is logged, not propagated. -/
theorem C10_sweep_failure_not_propagated (env : WorkflowEnv)
    (hm : env.mailLogin = .ok) (hf : env.findEmail = .ok)
    (ho : env.openEmail = .ok) (hc : env.clickSignIn = .ok)
    (hv : env.visitVideos = .ok)
    (hsweep : (autoLikeVideosModel env.feed).1 = false) :
    (completeWorkflowModel env).1.success = true ∧
    Stage.likeSweep ∈ (completeWorkflowModel env).2 := by
  simp [completeWorkflowModel, hm, hf, ho, hc, hv]

/-- The environment of the C10 witness: all navigation stages succeed, the
sweep faults immediately and so reports failure. -/
def c10Env : WorkflowEnv := ⟨.ok, .ok, .ok, .ok, .ok, fun _ => .fault⟩

/-- C10 witness: with a faulting sweep the workflow still returns success. -/
theorem C10_witness :
    (completeWorkflowModel c10Env).1.success = true ∧
    Stage.likeSweep ∈ (completeWorkflowModel c10Env).2 :=
  C10_sweep_failure_not_propagated c10Env rfl rfl rfl rfl rfl (by decide)

/-- C8 (spec-modelled): in the pipeline extended with the spec's
ensure-sort-order stage, a failing EnsureSortOrder with every other stage
succeeding does not short-circuit — the workflow completes with
`success: true` and the account's `finalStatus` is `success`. -/
theorem C8_sort_order_nonfatal (env : WorkflowEnvS) (e : String) (m : Nat)
    (today email : String)
    (hm : env.base.mailLogin = .ok) (hf : env.base.findEmail = .ok)
    (ho : env.base.openEmail = .ok) (hc : env.base.clickSignIn = .ok)
    (hv : env.base.visitVideos = .ok)
    (hsort : env.sortOrder = .err e)
    (hsweep : (autoLikeVideosModel env.base.feed).1 = true)
    (hm1 : 1 ≤ m) :
    (completeWorkflowSorted env).1.success = true ∧
    Stage.ensureSortOrder ∈ (completeWorkflowSorted env).2 ∧
    (processAccount m (fun _ => outcomeOfAttempt .ok (completeWorkflowSorted env).1)
        .absent today email).1.finalStatus = "success" := by
  have hw : (completeWorkflowSorted env).1 = ⟨true, none⟩ := by
    simp [completeWorkflowSorted, hm, hf, ho, hc, hv]
  have hmem : Stage.ensureSortOrder ∈ (completeWorkflowSorted env).2 := by
    simp [completeWorkflowSorted, hm, hf, ho, hc, hv]
  refine ⟨by rw [hw], hmem, ?_⟩
  obtain ⟨n, rfl⟩ : ∃ n, m = n + 1 := ⟨m - 1, by omega⟩
  rw [hw]
  simp [processAccount, isTestedToday, readTestRecords, lookupRecord, runAttempts,
    runAttemptsAux, outcomeOfAttempt, isSuccessOutcome]

/-- The environment of the C8 witness: every real stage succeeds, the
feed satisfies the sweep, the modelled ensure-sort-order stage fails. -/
def c8Env : WorkflowEnvS :=
  ⟨⟨.ok, .ok, .ok, .ok, .ok, fun _ => .found true⟩, .err "未找到排序按钮"⟩

/-- C8 witness: the concrete run with a failing sort stage still yields a
successful workflow and a `success` account status. -/
theorem C8_witness :
    (completeWorkflowSorted c8Env).1.success = true ∧
    Stage.ensureSortOrder ∈ (completeWorkflowSorted c8Env).2 ∧
    (processAccount 3 (fun _ => outcomeOfAttempt .ok (completeWorkflowSorted c8Env).1)
        .absent "2026-10-11" "a@x.com").1.finalStatus = "success" :=
  C8_sort_order_nonfatal c8Env "未找到排序按钮" 3 "2026-10-11" "a@x.com"
    rfl rfl rfl rfl rfl rfl (by decide) (by decide)
